import Mathlib

/-!
Verification of the `ct_h20` cooling-tower make-up-water calculator
(`src/ct_h2o/ct_h20.py`), shallowly embedded over ℚ.  Hourly series are
lists of rationals; the psychrometric library functions (psychrolib) are
external to the repository and are taken as abstract function parameters
of the weather import.  `np.empty(8760)` allocates uninitialized storage,
so the constructor takes the initial series contents as a parameter.
-/

/-- One data row of the weather file after the 18 skipped rows: the
(date, hour) index pair and the three used numeric columns, dry-bulb
temperature (°C), dew-point temperature (°C), relative humidity (%). -/
structure WeatherRow where
  date : String
  time : String
  db_C : ℚ
  dp_C : ℚ
  rh_pct : ℚ
deriving Repr, DecidableEq

/-- The `Tower` class state: configuration scalars set in `__init__` and
the imported / derived hourly series. -/
structure Tower where
  cycles : ℚ
  drift : ℚ
  dt : ℚ
  cooling_profile : List ℚ
  ambient_db : List ℚ
  ambient_dp : List ℚ
  ambient_rh : List ℚ
  tmy3 : List WeatherRow
  air_entering_w : List ℚ
  air_entering_h : List ℚ
  air_leaving_h : List ℚ
  air_entering_wb : List ℚ
deriving Repr, DecidableEq

/-- Class constant `EWT = 95`. -/
def Tower.EWT : ℚ := 95

/-- Class constant `LWT = 85`. -/
def Tower.LWT : ℚ := 85

/-- Class constant `w_entering_h = 62.95` (btu/lb, 95° water). -/
def Tower.w_entering_h : ℚ := 62.95

/-- Class constant `w_leaving_h = 52.85` (btu/lb, 85° water). -/
def Tower.w_leaving_h : ℚ := 52.85

/-- Class constant `PRESSURE = 14.6959` (psi, sea-level atmospheric). -/
def Tower.PRESSURE : ℚ := 14.6959

/-- `Tower.__init__(cycles, drift, dt)`: stores the three configuration
scalars and allocates the series with `np.empty(8760)` / an empty
DataFrame.  The contents of `np.empty` are unspecified, so they are
passed in as `uninit`. -/
def Tower.init (cycles drift dt : ℚ) (uninit : List ℚ) : Tower :=
  { cycles := cycles
    drift := drift
    dt := dt
    cooling_profile := uninit
    ambient_db := uninit
    ambient_dp := uninit
    ambient_rh := uninit
    tmy3 := []
    air_entering_w := uninit
    air_entering_h := uninit
    air_leaving_h := uninit
    air_entering_wb := uninit }

/-- `Tower.import_cooling_profile(file_path, units='btuh')`: stores the
file's column scaled elementwise by `*5/4` (compressor heat).  The
`units` argument appears nowhere in the body. -/
def Tower.import_cooling_profile (t : Tower) (file_data : List ℚ)
    (units : String) : Tower :=
  { t with cooling_profile := file_data.map (fun x => x * 5 / 4) }

/-- `Tower.cooling_water_flow` property: `cooling_profile / (dt * 500)`
elementwise. -/
def Tower.cooling_water_flow (t : Tower) : List ℚ :=
  t.cooling_profile.map (fun x => x / (t.dt * 500))

/-- `Tower.import_weather_data(file_path)`: stores the parsed rows as
`tmy3`, converts the three columns (°C to °F, percent to fraction), and
computes the psychrometric series.  The psychrolib functions are
vectorized (numba) and applied elementwise; note the source passes
`self.air_entering_h` — the field's PREVIOUS value — as the second
argument of `GetMoistAirEnthalpy`, not the humidity ratio
`self.air_entering_w` computed on the line before. -/
def Tower.import_weather_data
    (getHumRatioFromRelHum : ℚ → ℚ → ℚ → ℚ)
    (getMoistAirEnthalpy : ℚ → ℚ → ℚ)
    (getTWetBulbFromTDewPoint : ℚ → ℚ → ℚ → ℚ)
    (t : Tower) (rows : List WeatherRow) : Tower :=
  let ambient_db := rows.map (fun r => r.db_C * 9 / 5 + 32)
  let ambient_dp := rows.map (fun r => r.dp_C * 9 / 5 + 32)
  let ambient_rh := rows.map (fun r => r.rh_pct / 100)
  let air_entering_w := List.zipWith
    (fun db rh => getHumRatioFromRelHum db rh Tower.PRESSURE)
    ambient_db ambient_rh
  let air_entering_h := List.zipWith getMoistAirEnthalpy
    ambient_db t.air_entering_h
  let air_entering_wb := List.zipWith
    (fun db dp => getTWetBulbFromTDewPoint db dp Tower.PRESSURE)
    ambient_db ambient_dp
  { t with
    tmy3 := rows
    ambient_db := ambient_db
    ambient_dp := ambient_dp
    ambient_rh := ambient_rh
    air_entering_w := air_entering_w
    air_entering_h := air_entering_h
    air_entering_wb := air_entering_wb }

/-- `numpy.ndarray.max` on a possibly empty array: the maximum of a
nonempty list (left fold of `max` over the head), `none` on the empty
array (where numpy raises). -/
def npMax : List ℚ → Option ℚ
  | [] => none
  | x :: xs => some (xs.foldl max x)

/-- Scanning loop of `numpy.ndarray.argmax`: `best` is the running
maximum, `bi` its index, `cur` the index of the next element; the first
occurrence of the maximum wins (a later element replaces the best only
when strictly greater). -/
def npArgmaxGo (best : ℚ) (bi cur : Nat) : List ℚ → Nat
  | [] => bi
  | x :: xs =>
    if best < x then npArgmaxGo x cur (cur + 1) xs
    else npArgmaxGo best bi (cur + 1) xs

/-- `numpy.ndarray.argmax`: index of the first maximal element, `none`
on the empty array (where numpy raises). -/
def npArgmax : List ℚ → Option Nat
  | [] => none
  | x :: xs => some (npArgmaxGo x 0 1 xs)

/-- `Tower.design_wb` property: `self.air_entering_wb.max()`. -/
def Tower.design_wb (t : Tower) : Option ℚ :=
  npMax t.air_entering_wb

/-- `Tower.design_day` property: looks up `tmy3.index` at
`air_entering_wb.argmax()` and returns the label `date[5:]` `-` `time`
(`none` models the exceptions numpy/pandas raise on an empty series or
an out-of-range index). -/
def Tower.design_day (t : Tower) : Option String :=
  match npArgmax t.air_entering_wb with
  | none => none
  | some i =>
    match t.tmy3[i]? with
    | none => none
    | some r => some (r.date.drop 5 ++ "-" ++ r.time)

/-- `Tower.annual_water_make_up_profile()`: `cooling_water_flow * 0.008`
elementwise. -/
def Tower.annual_water_make_up_profile (t : Tower) : List ℚ :=
  t.cooling_water_flow.map (fun x => x * 0.008)

/-- `Tower.total_annual_water_make_up` property:
`np.array(self.cooling_water_flow).sum()`. -/
def Tower.total_annual_water_make_up (t : Tower) : ℚ :=
  t.cooling_water_flow.sum

/-- `Tower.peak_water_make_up` property:
`np.array(self.cooling_water_flow).max(initial=None)` — for the maximum
ufunc, `initial=None` means no initial value, so this is the plain
maximum (`none` on an empty series, where numpy raises). -/
def Tower.peak_water_make_up (t : Tower) : Option ℚ :=
  npMax t.cooling_water_flow

/-- A sample configured tower (default arguments `cycles=5, drift=0.002,
dt=10`, empty uninitialized storage) used to instantiate
hypothesis-bearing theorems. -/
def sampleTower : Tower :=
  Tower.init 5 0.002 10 []

/-- Three sample weather index rows. -/
def sampleRows : List WeatherRow :=
  [⟨"2020-01-01", "01:00", 1, 0, 40⟩,
   ⟨"2020-01-02", "02:00", 2, 1, 50⟩,
   ⟨"2020-01-03", "03:00", 3, 2, 60⟩]

/-- A tower whose wet-bulb series has three hours, peaking at hour 1,
with a matching three-row `tmy3` index. -/
def sampleWeatherTower : Tower :=
  { sampleTower with air_entering_wb := [70, 75, 72], tmy3 := sampleRows }

/-- The seed is below the left fold of `max`. -/
theorem le_foldl_max (xs : List ℚ) : ∀ x : ℚ, x ≤ xs.foldl max x := by
  induction xs with
  | nil => intro x; exact le_refl x
  | cons y ys ih =>
    intro x
    exact le_trans (le_max_left x y) (ih (max x y))

/-- Every list element is below the left fold of `max`. -/
theorem mem_le_foldl_max (xs : List ℚ) :
    ∀ (x a : ℚ), a ∈ xs → a ≤ xs.foldl max x := by
  induction xs with
  | nil => intro x a ha; cases ha
  | cons y ys ih =>
    intro x a ha
    rcases List.mem_cons.mp ha with h | h
    · subst h
      exact le_trans (le_max_right x a) (le_foldl_max ys (max x a))
    · exact ih (max x y) a h

/-- The left fold of `max` is the seed or one of the elements. -/
theorem foldl_max_mem (xs : List ℚ) :
    ∀ x : ℚ, xs.foldl max x = x ∨ xs.foldl max x ∈ xs := by
  induction xs with
  | nil => intro x; exact Or.inl rfl
  | cons y ys ih =>
    intro x
    rcases ih (max x y) with h | h
    · rcases max_choice x y with hm | hm
      · exact Or.inl (by rw [List.foldl_cons, h, hm])
      · refine Or.inr ?_
        rw [List.foldl_cons, h, hm]
        exact List.mem_cons_self y ys
    · exact Or.inr (List.mem_cons_of_mem y h)

/-- The scanning loop of `argmax` either keeps its incoming best index
(and the incoming best is already the maximum), or returns the position,
offset by `cur`, of an element equal to the maximum. -/
theorem npArgmaxGo_spec (xs : List ℚ) :
    ∀ (best : ℚ) (bi cur : Nat),
      (npArgmaxGo best bi cur xs = bi ∧ xs.foldl max best = best) ∨
      (∃ k, xs[k]? = some (xs.foldl max best) ∧
        npArgmaxGo best bi cur xs = cur + k) := by
  induction xs with
  | nil => intro best bi cur; exact Or.inl ⟨rfl, rfl⟩
  | cons x xs ih =>
    intro best bi cur
    by_cases hbx : best < x
    · have hmax : max best x = x := max_eq_right (le_of_lt hbx)
      have hgo : npArgmaxGo best bi cur (x :: xs)
          = npArgmaxGo x cur (cur + 1) xs := by
        simp [npArgmaxGo, hbx]
      have hfold : (x :: xs).foldl max best = xs.foldl max x := by
        rw [List.foldl_cons, hmax]
      rcases ih x cur (cur + 1) with ⟨h1, h2⟩ | ⟨k, hk1, hk2⟩
      · refine Or.inr ⟨0, ?_, ?_⟩
        · rw [hfold, h2]; simp
        · rw [hgo, h1]; omega
      · refine Or.inr ⟨k + 1, ?_, ?_⟩
        · rw [hfold]
          simpa using hk1
        · rw [hgo, hk2]
          omega
    · have hmax : max best x = best := max_eq_left (le_of_not_lt hbx)
      have hgo : npArgmaxGo best bi cur (x :: xs)
          = npArgmaxGo best bi (cur + 1) xs := by
        simp [npArgmaxGo, hbx]
      have hfold : (x :: xs).foldl max best = xs.foldl max best := by
        rw [List.foldl_cons, hmax]
      rcases ih best bi (cur + 1) with ⟨h1, h2⟩ | ⟨k, hk1, hk2⟩
      · exact Or.inl ⟨by rw [hgo, h1], by rw [hfold, h2]⟩
      · refine Or.inr ⟨k + 1, ?_, ?_⟩
        · rw [hfold]
          simpa using hk1
        · rw [hgo, hk2]
          omega

/-- The element at the index returned by `argmax` is the maximum. -/
theorem npArgmax_get (l : List ℚ) (i : Nat) (m : ℚ)
    (hi : npArgmax l = some i) (hm : npMax l = some m) :
    l[i]? = some m := by
  cases l with
  | nil => cases hi
  | cons x xs =>
    have hi' : i = npArgmaxGo x 0 1 xs := by
      simpa [npArgmax] using hi.symm
    have hm' : m = xs.foldl max x := by
      simpa [npMax] using hm.symm
    subst hi'; subst hm'
    rcases npArgmaxGo_spec xs x 0 1 with ⟨h1, h2⟩ | ⟨k, hk1, hk2⟩
    · rw [h1, h2]; simp
    · rw [hk2]
      have : 1 + k = k + 1 := Nat.add_comm 1 k
      rw [this]
      simpa using hk1

/-- `npMax` of a nonempty list is a member of the list. -/
theorem npMax_mem (l : List ℚ) (m : ℚ) (hm : npMax l = some m) : m ∈ l := by
  cases l with
  | nil => cases hm
  | cons x xs =>
    have hm' : m = xs.foldl max x := by
      simpa [npMax] using hm.symm
    subst hm'
    rcases foldl_max_mem xs x with h | h
    · rw [h]; exact List.mem_cons_self x xs
    · exact List.mem_cons_of_mem x h

/-- `npMax` is an upper bound of the list. -/
theorem npMax_ub (l : List ℚ) (m : ℚ) (hm : npMax l = some m) :
    ∀ a ∈ l, a ≤ m := by
  cases l with
  | nil => cases hm
  | cons x xs =>
    have hm' : m = xs.foldl max x := by
      simpa [npMax] using hm.symm
    subst hm'
    intro a ha
    rcases List.mem_cons.mp ha with h | h
    · subst h; exact le_foldl_max xs a
    · exact mem_le_foldl_max xs x a h

/-- A nonempty list has an `npMax` and an `npArgmax`. -/
theorem npMax_isSome (l : List ℚ) (h : l ≠ []) :
    (∃ m, npMax l = some m) ∧ (∃ i, npArgmax l = some i) := by
  cases l with
  | nil => exact absurd rfl h
  | cons x xs => exact ⟨⟨xs.foldl max x, rfl⟩, ⟨npArgmaxGo x 0 1 xs, rfl⟩⟩

/-- Sum of an elementwise right-multiplication. -/
theorem sum_map_mul_const (l : List ℚ) (c : ℚ) :
    (l.map (fun x => x * c)).sum = l.sum * c := by
  induction l with
  | nil => simp
  | cons x xs ih => simp [ih, add_mul]

/-- Concrete psychrometric instantiation for exercising the weather
import: the humidity-ratio function returns the relative humidity. -/
def c4HumRatio : ℚ → ℚ → ℚ → ℚ := fun _ rh _ => rh

/-- Concrete psychrometric instantiation: enthalpy as dry-bulb plus
humidity ratio. -/
def c4Enthalpy : ℚ → ℚ → ℚ := fun db w => db + w

/-- Concrete psychrometric instantiation: wet bulb as the dew point. -/
def c4WetBulb : ℚ → ℚ → ℚ → ℚ := fun _ dp _ => dp

/-- A concrete weather row: dry-bulb 30 °C, dew point 20 °C, relative
humidity 50 %. -/
def c4Row : WeatherRow := ⟨"2020-01-01", "01:00", 30, 20, 50⟩

/-- The tower state after importing the single row `c4Row` into a fresh
tower whose uninitialized enthalpy storage holds `[0]`. -/
def c4Res : Tower :=
  Tower.import_weather_data c4HumRatio c4Enthalpy c4WetBulb
    (Tower.init 5 0.002 10 [0]) [c4Row]

/-- C1: for every Tower, the derived read-only property
`total_annual_water_make_up` is the sum over the `cooling_water_flow`
series, i.e. the sum of `cooling_profile / (dt * 500)`; the `0.008`
make-up factor is not applied in this total. -/
theorem claim_C1_total_is_sum_of_flow (t : Tower) :
    t.total_annual_water_make_up = t.cooling_water_flow.sum ∧
    t.total_annual_water_make_up
      = (t.cooling_profile.map (fun x => x / (t.dt * 500))).sum :=
  ⟨rfl, rfl⟩

/-- C2: for every Tower, `annual_water_make_up_profile()` has the same
length as `cooling_water_flow` and equals it multiplied elementwise by
the constant `0.008`, at every hour index. -/
theorem claim_C2_make_up_profile_elementwise (t : Tower) (i : Nat) :
    t.annual_water_make_up_profile.length = t.cooling_water_flow.length ∧
    t.annual_water_make_up_profile[i]?
      = (t.cooling_water_flow[i]?).map (fun x => x * 0.008) := by
  constructor
  · exact List.length_map _ _
  · simp [Tower.annual_water_make_up_profile]

/-- C3: for every Tower and a constant cooling-load input of value `V`
across all 8760 hours passed through `import_cooling_profile`,
`cooling_water_flow` equals `V * 1.25 / (dt * 500)` at every hour (the
`1.25` factor being the `5/4` compressor-heat uplift applied at
import). -/
theorem claim_C3_constant_load_flow (t : Tower) (V : ℚ) (u : String)
    (i : Nat) (hi : i < 8760) :
    (t.import_cooling_profile (List.replicate 8760 V) u).cooling_water_flow[i]?
      = some (V * 1.25 / (t.dt * 500)) := by
  unfold Tower.import_cooling_profile Tower.cooling_water_flow
  rw [List.map_map, List.map_replicate, List.getElem?_replicate, if_pos hi]
  norm_num
  ring

/-- C3 witness at `sampleTower` (with `dt = 10`), `V = 1`, hour 0. -/
theorem claim_C3_witness :
    (sampleTower.import_cooling_profile
        (List.replicate 8760 1) "btuh").cooling_water_flow[0]?
      = some (1 * 1.25 / (sampleTower.dt * 500)) :=
  claim_C3_constant_load_flow sampleTower 1 "btuh" 0 (by norm_num)

/-- C4: the claim says the stored moist-air enthalpy series is computed
from dry-bulb and the humidity-ratio series; the source instead passes
the field's previous value `self.air_entering_h` (uninitialized
`np.empty` storage) as the humidity-ratio argument of
`GetMoistAirEnthalpy`, so the stored enthalpy differs from the enthalpy
of dry-bulb and humidity ratio: on the single row `c4Row` (dry-bulb
30 °C, relative humidity 50 %) with stale storage `[0]`, the code stores
`[86]` while the enthalpy from the humidity ratio would be `[86.5]`. -/
theorem claim_C4_enthalpy_uses_stale_field :
    c4Res.air_entering_w = [1/2] ∧
    c4Res.air_entering_h = [86] ∧
    List.zipWith c4Enthalpy c4Res.ambient_db c4Res.air_entering_w
      = [86 + 1/2] ∧
    c4Res.air_entering_h
      ≠ List.zipWith c4Enthalpy c4Res.ambient_db c4Res.air_entering_w := by
  refine ⟨?_, ?_, ?_, ?_⟩ <;>
    norm_num [c4Res, Tower.import_weather_data, Tower.init, c4Row,
      c4HumRatio, c4Enthalpy, c4WetBulb]

/-- C5: for every Tower with a nonempty wet-bulb series indexed by
`tmy3`, `design_wb` is the maximum of the wet-bulb series (a member of
the series bounding all its elements), and `design_day` reports the
(date, hour) label of the `tmy3` row at the argmax index of the wet-bulb
series, the wet-bulb value there being that same maximum. -/
theorem claim_C5_design_wb_day (t : Tower)
    (hne : t.air_entering_wb ≠ [])
    (hlen : t.air_entering_wb.length ≤ t.tmy3.length) :
    ∃ m i r, t.design_wb = some m
      ∧ m ∈ t.air_entering_wb
      ∧ (∀ x ∈ t.air_entering_wb, x ≤ m)
      ∧ npArgmax t.air_entering_wb = some i
      ∧ t.air_entering_wb[i]? = some m
      ∧ t.tmy3[i]? = some r
      ∧ t.design_day = some (r.date.drop 5 ++ "-" ++ r.time) := by
  obtain ⟨⟨m, hm⟩, ⟨i, hi⟩⟩ := npMax_isSome t.air_entering_wb hne
  have hget : t.air_entering_wb[i]? = some m := npArgmax_get _ _ _ hi hm
  have hilt : i < t.air_entering_wb.length :=
    List.getElem?_eq_some_iff.mp hget |>.1
  have hitm : i < t.tmy3.length := lt_of_lt_of_le hilt hlen
  refine ⟨m, i, t.tmy3[i], hm, npMax_mem _ _ hm, npMax_ub _ _ hm, hi, hget,
    List.getElem?_eq_getElem hitm, ?_⟩
  simp [Tower.design_day, hi, List.getElem?_eq_getElem hitm]

/-- C5 witness on a three-row weather tower whose wet-bulb series peaks
at hour 1. -/
theorem claim_C5_witness :
    ∃ m i r, sampleWeatherTower.design_wb = some m
      ∧ m ∈ sampleWeatherTower.air_entering_wb
      ∧ (∀ x ∈ sampleWeatherTower.air_entering_wb, x ≤ m)
      ∧ npArgmax sampleWeatherTower.air_entering_wb = some i
      ∧ sampleWeatherTower.air_entering_wb[i]? = some m
      ∧ sampleWeatherTower.tmy3[i]? = some r
      ∧ sampleWeatherTower.design_day
          = some (r.date.drop 5 ++ "-" ++ r.time) :=
  claim_C5_design_wb_day sampleWeatherTower (by decide) (by decide)

/-- C6: for every Tower with a nonempty cooling-water-flow series,
`peak_water_make_up` is the maximum of the `cooling_water_flow` series
(a member of the series bounding all its elements), and equals the value
of that series at the index returned by an argmax over it. -/
theorem claim_C6_peak_is_max (t : Tower)
    (hne : t.cooling_water_flow ≠ []) :
    ∃ m i, t.peak_water_make_up = some m
      ∧ m ∈ t.cooling_water_flow
      ∧ (∀ x ∈ t.cooling_water_flow, x ≤ m)
      ∧ npArgmax t.cooling_water_flow = some i
      ∧ t.cooling_water_flow[i]? = some m := by
  obtain ⟨⟨m, hm⟩, ⟨i, hi⟩⟩ := npMax_isSome t.cooling_water_flow hne
  exact ⟨m, i, hm, npMax_mem _ _ hm, npMax_ub _ _ hm, hi,
    npArgmax_get _ _ _ hi hm⟩

/-- C6 witness after importing a three-hour cooling profile into
`sampleTower`. -/
theorem claim_C6_witness :
    ∃ m i, (sampleTower.import_cooling_profile
        [1000, 2000, 1500] "btuh").peak_water_make_up = some m
      ∧ m ∈ (sampleTower.import_cooling_profile
          [1000, 2000, 1500] "btuh").cooling_water_flow
      ∧ (∀ x ∈ (sampleTower.import_cooling_profile
          [1000, 2000, 1500] "btuh").cooling_water_flow, x ≤ m)
      ∧ npArgmax (sampleTower.import_cooling_profile
          [1000, 2000, 1500] "btuh").cooling_water_flow = some i
      ∧ (sampleTower.import_cooling_profile
          [1000, 2000, 1500] "btuh").cooling_water_flow[i]? = some m :=
  claim_C6_peak_is_max
    (sampleTower.import_cooling_profile [1000, 2000, 1500] "btuh")
    (by decide)

/-- C7: `import_weather_data` converts dry-bulb and dew-point from
Celsius to Fahrenheit by `°F = °C * 9/5 + 32` and relative humidity
from percent to fraction by dividing by 100, for every record; in
particular 30 °C maps to 86 °F and 50 % maps to 0.5. -/
theorem claim_C7_unit_conversions
    (humF : ℚ → ℚ → ℚ → ℚ) (enthF : ℚ → ℚ → ℚ) (wbF : ℚ → ℚ → ℚ → ℚ)
    (t : Tower) (rows : List WeatherRow) :
    (Tower.import_weather_data humF enthF wbF t rows).ambient_db
        = rows.map (fun r => r.db_C * 9 / 5 + 32)
      ∧ (Tower.import_weather_data humF enthF wbF t rows).ambient_dp
        = rows.map (fun r => r.dp_C * 9 / 5 + 32)
      ∧ (Tower.import_weather_data humF enthF wbF t rows).ambient_rh
        = rows.map (fun r => r.rh_pct / 100)
      ∧ (30 : ℚ) * 9 / 5 + 32 = 86
      ∧ (50 : ℚ) / 100 = 0.5 :=
  ⟨rfl, rfl, rfl, by norm_num, by norm_num⟩

/-- C8: `import_cooling_profile` stores the identical state for any two
values of the `units` argument: the parameter performs no conversion and
has no effect on the result. -/
theorem claim_C8_units_ignored (t : Tower) (file_data : List ℚ)
    (u1 u2 : String) :
    t.import_cooling_profile file_data u1
      = t.import_cooling_profile file_data u2 :=
  rfl

/-- C9: the configuration fields `cycles`, `drift` and `dt` are
unchanged by `import_cooling_profile` and by `import_weather_data`; the
derived properties contain no field assignment in the source and are
modelled as pure functions of the state, so no property access modifies
them either. -/
theorem claim_C9_config_immutable (t : Tower) (file_data : List ℚ)
    (u : String) (humF : ℚ → ℚ → ℚ → ℚ) (enthF : ℚ → ℚ → ℚ)
    (wbF : ℚ → ℚ → ℚ → ℚ) (rows : List WeatherRow) :
    ((t.import_cooling_profile file_data u).cycles = t.cycles
      ∧ (t.import_cooling_profile file_data u).drift = t.drift
      ∧ (t.import_cooling_profile file_data u).dt = t.dt)
    ∧ ((Tower.import_weather_data humF enthF wbF t rows).cycles = t.cycles
      ∧ (Tower.import_weather_data humF enthF wbF t rows).drift = t.drift
      ∧ (Tower.import_weather_data humF enthF wbF t rows).dt = t.dt) :=
  ⟨⟨rfl, rfl, rfl⟩, ⟨rfl, rfl, rfl⟩⟩

/-- C10: for every Tower, the sum of `annual_water_make_up_profile()`
over all hours equals `0.008` times `total_annual_water_make_up`, both
deriving from the same `cooling_water_flow` series. -/
theorem claim_C10_profile_sum_vs_total (t : Tower) :
    t.annual_water_make_up_profile.sum
      = 0.008 * t.total_annual_water_make_up := by
  unfold Tower.annual_water_make_up_profile Tower.total_annual_water_make_up
  rw [sum_map_mul_const, mul_comm]
